import Mathlib

/-!
Verification of the generic-mcp-template repository's core: the generic
`ApiClient` (GET caching, URL building, POST) from `src/config.ts`, the two
tool-dispatch request handlers from `src/index.ts` (the zod-validating
variant and the example-handlers variant), and the example tool handlers
from `src/tools/example-tool-handlers.ts`.

The embedding is shallow: the HTTP layer is an oracle function passed in
(`fetch`), time is an explicit `now : Int` parameter (JS `Date.now()`),
the mutable `cache` Map is explicit state threaded through calls, and a
thrown JS value is an explicit `Except` error. URL resolution
(`new URL(endpoint, base)`) and percent-encoding are abstracted as string
concatenation; none of the verified properties depend on their details,
only on two URLs being equal exactly when base, endpoint and the serialized
query agree.
-/

set_option maxHeartbeats 1000000

deriving instance DecidableEq for Except

/-- Serialization of query parameters, from `ApiClient.buildUrl`
(`src/config.ts` lines 187-198): a parameter is appended to the URL's
search params only when its value is not `undefined`, not `null` and not
the empty string. `none` models an absent/`null`/`undefined` value. -/
def serializeParams (params : List (String × Option String)) :
    List (String × String) :=
  params.filterMap (fun p =>
    match p.2 with
    | some v => if v = "" then none else some (p.1, v)
    | none => none)

/-- Abstraction of `new URL(endpoint, baseUrl)`: resolution modelled as
concatenation (claim-irrelevant; only equality of resolved URLs matters). -/
def resolveUrl (baseUrl endpoint : String) : String :=
  baseUrl ++ endpoint

/-- Rendering of `url.searchParams` into the URL string (percent-encoding
elided). -/
def queryString (q : List (String × String)) : String :=
  match q with
  | [] => ""
  | _ => "?" ++ String.intercalate "&" (q.map (fun p => p.1 ++ "=" ++ p.2))

/-- `ApiClient.buildUrl` (`src/config.ts` lines 187-198): resolve the
endpoint against the base URL and append the non-empty, non-null query
parameters. -/
def buildUrl (baseUrl endpoint : String)
    (params : List (String × Option String)) : String :=
  resolveUrl baseUrl endpoint ++ queryString (serializeParams params)

/-- One entry of the `ApiClient` cache Map: the parsed response body and
the `Date.now()` timestamp at which it was stored (`src/config.ts` line 98). -/
structure CacheEntry (α : Type) where
  data : α
  timestamp : Int
deriving DecidableEq, Repr

/-- The `ApiClient` instance state: the private `cache` Map, modelled as an
association list keyed by the full request URL. -/
structure ClientState (α : Type) where
  cache : List (String × CacheEntry α)
deriving DecidableEq, Repr

/-- The configuration values the `ApiClient` reads (`config.api` in
`src/config.ts`): the base URL and the cache TTL in seconds. -/
structure ApiConfig where
  baseUrl : String
  cacheTtlSeconds : Int
deriving DecidableEq, Repr

/-- Outcome of one network round trip as the client observes it:
a 2xx response with parsed JSON body `α`, a non-ok response
(`!response.ok`) with status and body text, or a transport fault. -/
inductive FetchOutcome (α : Type) where
  | ok (data : α)
  | httpError (status : Nat) (body : String)
  | netError (msg : String)
deriving DecidableEq, Repr

/-- `Map.set` on the cache: overwrite the entry for `key`. -/
def cacheSet (cache : List (String × CacheEntry α)) (key : String)
    (entry : CacheEntry α) : List (String × CacheEntry α) :=
  (key, entry) :: cache.filter (fun p => p.1 ≠ key)

/-- `ApiClient.get` (`src/config.ts` lines 112-148). Returns the call's
result, the client state after the call, and whether a network fetch was
performed. When `useCache` is true and the cache holds an entry for the
full URL whose age `now - timestamp` is below `cacheTtlSeconds * 1000`,
the cached data is returned with no fetch; otherwise the oracle `fetch`
is consulted, a non-ok response or transport fault is rethrown as an
error, and a successful body is stored in the cache (only when `useCache`
is true) before being returned. -/
def ApiClient.get (cfg : ApiConfig) (fetch : String → FetchOutcome α)
    (now : Int) (st : ClientState α) (endpoint : String)
    (params : List (String × Option String)) (useCache : Bool) :
    Except String α × ClientState α × Bool :=
  let url := buildUrl cfg.baseUrl endpoint params
  let cacheKey := url
  let doFetch : Except String α × ClientState α × Bool :=
    match fetch url with
    | .ok data =>
      (.ok data,
       if useCache then
         { cache := cacheSet st.cache cacheKey { data := data, timestamp := now } }
       else st,
       true)
    | .httpError status body =>
      (.error ("API request failed with status " ++ toString status ++ ": " ++ body),
       st, true)
    | .netError msg => (.error msg, st, true)
  if useCache then
    match List.lookup cacheKey st.cache with
    | some cached =>
      if now - cached.timestamp < cfg.cacheTtlSeconds * 1000 then
        (.ok cached.data, st, false)
      else doFetch
    | none => doFetch
  else doFetch

/-- `ApiClient.post` (`src/config.ts` lines 156-179). The endpoint is
resolved against the base URL with no query parameters; the oracle
`fetchPost` models the POST round trip with the JSON-serialized body.
The method has no `useCache` parameter and never touches `this.cache`. -/
def ApiClient.post (cfg : ApiConfig) (fetchPost : String → β → FetchOutcome α)
    (st : ClientState α) (endpoint : String) (body : β) :
    Except String α × ClientState α :=
  let url := resolveUrl cfg.baseUrl endpoint
  match fetchPost url body with
  | .ok data => (.ok data, st)
  | .httpError status bodyText =>
    (.error ("API request failed with status " ++ toString status ++ ": " ++ bodyText), st)
  | .netError msg => (.error msg, st)

/-- A value thrown by JS code as the dispatchers classify it:
`err msg` is an `Error` instance (`error instanceof Error`, with
`error.message = msg`), `raw desc` is any non-`Error` thrown value
(`desc` standing for `String(error)`). -/
inductive Thrown where
  | err (msg : String)
  | raw (desc : String)
deriving DecidableEq, Repr

/-- The `McpError` codes the two dispatchers use (`ErrorCode` from the MCP
SDK): `MethodNotFound` and `InvalidParams`. -/
inductive McpErrorCode where
  | methodNotFound
  | invalidParams
deriving DecidableEq, Repr

/-- A registered tool of the zod-variant dispatcher (`TOOLS` in
`src/index.ts` first half): a zod `inputSchema` whose `parse` either
returns the parsed arguments or throws a `ZodError` (an `Error` carrying
a message), and a handler that either returns a result or throws. -/
structure ZodTool (V R : Type) where
  parse : V → Except String V
  handler : V → Except Thrown R

/-- What the transport observes from one zod-variant dispatch:
a successful result, a thrown `McpError` (relayed by the SDK as a
structured protocol error), or a non-`Error` value re-thrown out of the
handler unhandled. -/
inductive ZodResult (R : Type) where
  | success (r : R)
  | mcpError (code : McpErrorCode) (msg : String)
  | crash (v : Thrown)
deriving DecidableEq, Repr

/-- The zod-variant `CallToolRequestSchema` handler (`src/index.ts` lines
81-105). Lookup failure throws `McpError(MethodNotFound, "Unknown tool: " ++ name)`.
The `try` block covers both `tool.inputSchema.parse` and `tool.handler`;
the `catch` wraps any `Error` instance (a `ZodError` from `parse` as well
as an `Error` thrown by the handler) into
`McpError(InvalidParams, "Invalid arguments: " ++ message)` and re-throws
any non-`Error` value unchanged. -/
def zodDispatch (tools : List (String × ZodTool V R)) (name : String)
    (rawArgs : V) : ZodResult R :=
  match List.lookup name tools with
  | none => .mcpError .methodNotFound ("Unknown tool: " ++ name)
  | some tool =>
    match tool.parse rawArgs with
    | .error e => .mcpError .invalidParams ("Invalid arguments: " ++ e)
    | .ok args =>
      match tool.handler args with
      | .ok r => .success r
      | .error (.err m) => .mcpError .invalidParams ("Invalid arguments: " ++ m)
      | .error (.raw d) => .crash (.raw d)

/-- What the transport observes from one example-variant dispatch:
a success envelope (the handler's result, JSON rendering elided), an
error envelope (`content` text with `isError: true`), or a re-thrown
`McpError` (relayed by the SDK as a structured protocol error). -/
inductive ExResult (R : Type) where
  | success (r : R)
  | errorEnvelope (text : String)
  | mcpError (code : McpErrorCode) (msg : String)
deriving DecidableEq, Repr

/-- The text the example-variant catch block renders for a thrown value:
`error instanceof Error ? error.message : String(error)`. -/
def thrownText : Thrown → String
  | .err m => m
  | .raw d => d

/-- The example-variant `CallToolRequestSchema` handler (`src/index.ts`
lines 208-251). The handler registry maps names directly to handler
functions; no schema validation happens at dispatch. An unknown name
throws `McpError(MethodNotFound, ...)`, which the catch re-throws because
it is an `McpError`; anything else a handler throws is wrapped into an
`isError` content envelope `"Error: " ++ text`. -/
def exDispatch {V R : Type} (handlers : List (String × (V → Except Thrown R)))
    (name : String) (args : V) : ExResult R :=
  match List.lookup name handlers with
  | none => .mcpError .methodNotFound ("Unknown tool: " ++ name)
  | some h =>
    match h args with
    | .ok r => .success r
    | .error t => .errorEnvelope ("Error: " ++ thrownText t)

/-- A resource of the example API (`ExampleResource` in
`src/types/example-types.ts`; fields not used by the verified handlers
are elided). -/
structure ExampleResource where
  id : String
  name : String
  status : String
  tags : List String
deriving DecidableEq, Repr

/-- The result object of the `update_resource` handler. -/
structure UpdateResult where
  message : String
  resource : ExampleResource
deriving DecidableEq, Repr

/-- The result object of the `search_resources` handler
(`{ resources, count, query, filters }`). -/
structure SearchResult where
  resources : List ExampleResource
  count : Nat
  query : String
  filterTags : Option (List String)
  filterStatus : Option String
deriving DecidableEq, Repr

/-- A call made against the `ExampleService` boundary. `ExampleService`
(`src/services/example-service.ts`) forwards each such call verbatim to
its HTTP client (`updateResource` passes `data` unchanged as the PUT
payload), so this trace is also what reaches the API client. -/
inductive ServiceCall where
  | deleteCall (resourceId : String)
  | updateCall (resourceId : String) (data : List (String × String))
  | searchCall (name : String)
deriving DecidableEq, Repr

/-- Oracle for the `ExampleService` methods the verified handlers call:
each either returns a value or rejects with an `Error` message. -/
structure SvcModel where
  deleteResource : String → Except String Unit
  updateResource : String → List (String × String) → Except String ExampleResource
  searchResourcesByName : String → Except String (List ExampleResource)

/-- JS truthiness of an optional string field (`!args.field` is falsy for
`undefined` and for the empty string). -/
def jsTruthyStr : Option String → Bool
  | some s => s ≠ ""
  | none => false

/-- Arguments of the `delete_resource` handler
(`{ resourceId: string; confirm: boolean }`); `none` models an absent
field in the raw arguments object. -/
structure DeleteArgs where
  resourceId : Option String
  confirm : Option Bool
deriving DecidableEq, Repr

/-- The declared input schema of the `delete_resource` tool
(`exampleTools` in `src/tools/example-tools.ts`): both `resourceId` and
`confirm` are in `required`. Field types are enforced by the embedding's
types, so acceptance reduces to presence of the required fields. -/
def deleteInputSchemaAccepts (a : DeleteArgs) : Bool :=
  a.resourceId.isSome && a.confirm.isSome

/-- The `delete_resource` handler
(`src/tools/example-tool-handlers.ts` lines 105-123). A falsy
`resourceId` throws `resourceId is required`; a falsy `confirm`
(absent or `false`) throws the confirmation message; only then is
`exampleService.deleteResource` awaited. The catch block re-throws every
failure as `Error("Failed to delete resource: " ++ message)`. Returns the
handler outcome together with the trace of service calls performed. -/
def delete_resource (svc : SvcModel) (args : DeleteArgs) :
    Except Thrown String × List ServiceCall :=
  match args.resourceId with
  | none => (.error (.err "Failed to delete resource: resourceId is required"), [])
  | some rid =>
    if rid = "" then
      (.error (.err "Failed to delete resource: resourceId is required"), [])
    else if args.confirm = some true then
      match svc.deleteResource rid with
      | .ok _ =>
        (.ok ("Resource " ++ rid ++ " deleted successfully"), [.deleteCall rid])
      | .error m =>
        (.error (.err ("Failed to delete resource: " ++ m)), [.deleteCall rid])
    else
      (.error (.err "Failed to delete resource: Deletion must be confirmed by setting confirm=true"), [])

/-- Lookup of a field in a raw JS arguments object modelled as an
association list. -/
def jsLookup (args : List (String × String)) (k : String) : Option String :=
  List.lookup k args

/-- The rest-spread destructuring of `update_resource` that splits
`resourceId` from `...updateData`: every field other than the identifier. -/
def restSpread (args : List (String × String)) (k : String) :
    List (String × String) :=
  args.filter (fun p => p.1 ≠ k)

/-- The `update_resource` handler
(`src/tools/example-tool-handlers.ts` lines 81-99). The raw arguments
object is modelled as an association list of string fields. A falsy
`resourceId` throws; otherwise `resourceId` is destructured out and the
remaining fields are passed to `exampleService.updateResource` as the
update body. The catch re-throws failures as
`Error("Failed to update resource: " ++ message)`. -/
def update_resource (svc : SvcModel) (args : List (String × String)) :
    Except Thrown UpdateResult × List ServiceCall :=
  match jsLookup args "resourceId" with
  | none => (.error (.err "Failed to update resource: resourceId is required"), [])
  | some rid =>
    if rid = "" then
      (.error (.err "Failed to update resource: resourceId is required"), [])
    else
      let updateData := restSpread args "resourceId"
      match svc.updateResource rid updateData with
      | .ok r =>
        (.ok { message := "Resource " ++ rid ++ " updated successfully", resource := r },
         [.updateCall rid updateData])
      | .error m =>
        (.error (.err ("Failed to update resource: " ++ m)), [.updateCall rid updateData])

/-- Arguments of the `search_resources` handler
(`{ query: string; tags?: string[]; status?: string }`). -/
structure SearchArgs where
  query : String
  tags : Option (List String)
  status : Option String
deriving DecidableEq, Repr

/-- The `search_resources` handler
(`src/tools/example-tool-handlers.ts` lines 129-165). A falsy `query`
throws `query is required`; otherwise the upstream results of
`exampleService.searchResourcesByName(query)` are narrowed in-process:
when `args.status` is truthy, keep resources with `r.status === args.status`;
when `args.tags` is present and non-empty, keep resources whose tag list
has at least one tag contained in `args.tags`. The result carries the
narrowed list, its length as `count`, the query and the filters. The
catch re-throws failures as `Error("Failed to search resources: " ++ message)`. -/
def search_resources (svc : SvcModel) (args : SearchArgs) :
    Except Thrown SearchResult × List ServiceCall :=
  if args.query = "" then
    (.error (.err "Failed to search resources: query is required"), [])
  else
    match svc.searchResourcesByName args.query with
    | .error m =>
      (.error (.err ("Failed to search resources: " ++ m)), [.searchCall args.query])
    | .ok resources =>
      let afterStatus :=
        if jsTruthyStr args.status then
          resources.filter (fun r => some r.status = args.status)
        else resources
      let afterTags :=
        match args.tags with
        | some ts =>
          if ts.length > 0 then
            afterStatus.filter (fun r => r.tags.any (fun tag => ts.contains tag))
          else afterStatus
        | none => afterStatus
      (.ok { resources := afterTags, count := afterTags.length,
             query := args.query, filterTags := args.tags,
             filterStatus := args.status },
       [.searchCall args.query])

/-- Whether an `Except` value is a success (`isOk`). -/
def exceptOk {ε γ : Type} : Except ε γ → Bool
  | .ok _ => true
  | .error _ => false

/-- The `resources` field of a successful search handler outcome. -/
def searchResultList : Except Thrown SearchResult → List ExampleResource
  | .ok res => res.resources
  | .error _ => []

/-- The `count` field of a successful search handler outcome. -/
def searchResultCount : Except Thrown SearchResult → Nat
  | .ok res => res.count
  | .error _ => 0

/-- Fixture: a resource tagged `red`. -/
def resRed : ExampleResource :=
  { id := "1", name := "red widget", status := "active", tags := ["red"] }

/-- Fixture: a resource tagged `blue`. -/
def resBlue : ExampleResource :=
  { id := "2", name := "blue widget", status := "inactive", tags := ["blue"] }

/-- Fixture: a concrete `ExampleService` oracle. Deletion succeeds, update
echoes a fixed resource, search by name returns the two fixture
resources. -/
def svcTest : SvcModel where
  deleteResource := fun _ => .ok ()
  updateResource := fun rid _ =>
    .ok { id := rid, name := "new", status := "active", tags := [] }
  searchResourcesByName := fun _ => .ok [resRed, resBlue]

/-- Fixture: the example-variant registry restricted to the
`delete_resource` handler bound to `svcTest` (the dispatch function is
generic in the argument type; here it is instantiated at `DeleteArgs`). -/
def exampleDeleteRegistry : List (String × (DeleteArgs → Except Thrown String)) :=
  [("delete_resource", fun a => (delete_resource svcTest a).1)]

/-- Fixture: a zod-variant registry with a tool whose handler throws an
`Error` and a tool whose handler throws a non-`Error` value. -/
def zodBoomTools : List (String × ZodTool Int String) :=
  [("boom-tool", { parse := fun v => .ok v, handler := fun _ => .error (.err "boom") }),
   ("raw-tool", { parse := fun v => .ok v, handler := fun _ => .error (.raw "42") })]

/-- Fixture: client configuration with the repository defaults
(`API_BASE_URL` default and `CACHE_TTL_SECONDS` default 300). -/
def cfgW : ApiConfig :=
  { baseUrl := "https://api.example.com", cacheTtlSeconds := 300 }

/-- Fixture: a client state holding one cached GET response stored at
timestamp 1000. -/
def stW : ClientState String :=
  { cache := [("https://api.example.com/resources?status=active",
               { data := "cached-body", timestamp := 1000 })] }

/-- Fixture: a network oracle on which any actual fetch fails. -/
def fetchOffline : String → FetchOutcome String :=
  fun _ => .netError "offline"

/-- C1: a GET with `useCache = true` whose resolved URL has a cache entry
younger than `cacheTtlSeconds * 1000` milliseconds returns exactly the
cached value, leaves the cache unchanged, and performs no network fetch
(the third component is the fetch flag, and the result does not depend on
the `fetch` oracle at all). -/
theorem get_cache_hit_returns_cached {α : Type} (cfg : ApiConfig)
    (fetch : String → FetchOutcome α) (now : Int) (st : ClientState α)
    (endpoint : String) (params : List (String × Option String))
    (entry : CacheEntry α)
    (hc : List.lookup (buildUrl cfg.baseUrl endpoint params) st.cache = some entry)
    (hfresh : now - entry.timestamp < cfg.cacheTtlSeconds * 1000) :
    ApiClient.get cfg fetch now st endpoint params true =
      (.ok entry.data, st, false) := by
  unfold ApiClient.get
  simp [hc, hfresh]

/-- Witness for C1: with the default configuration, a cached entry for
`<base>/resources?status=active` stored at time 1000 and a current time
of 2000, the GET returns the cached body with no fetch, even though the
network oracle would fail. -/
theorem get_cache_hit_returns_cached_witness :
    List.lookup (buildUrl cfgW.baseUrl "/resources" [("status", some "active")]) stW.cache
      = some { data := "cached-body", timestamp := 1000 } ∧
    (2000 : Int) - 1000 < cfgW.cacheTtlSeconds * 1000 ∧
    ApiClient.get cfgW fetchOffline 2000 stW "/resources" [("status", some "active")] true
      = (.ok "cached-body", stW, false) :=
  ⟨by decide, by decide,
   get_cache_hit_returns_cached cfgW fetchOffline 2000 stW "/resources"
     [("status", some "active")] { data := "cached-body", timestamp := 1000 }
     (by decide) (by decide)⟩

/-- C9: a POST never creates a cache entry and never consults the cache:
the client state after any `post` is exactly the state before, and the
result is independent of the cache contents (`post` has no `useCache`
parameter in the source at all). -/
theorem post_never_touches_cache {α β : Type} (cfg : ApiConfig)
    (fetchPost : String → β → FetchOutcome α) (st st2 : ClientState α)
    (endpoint : String) (body : β) :
    (ApiClient.post cfg fetchPost st endpoint body).2 = st ∧
    (ApiClient.post cfg fetchPost st endpoint body).1 =
      (ApiClient.post cfg fetchPost st2 endpoint body).1 := by
  unfold ApiClient.post
  cases h : fetchPost (resolveUrl cfg.baseUrl endpoint) body <;> simp [h]

/-- C10: a GET with `useCache = false` neither reads nor writes the cache:
the state after the call is exactly the state before, a network fetch
always occurs (even when a live entry exists for the URL), and the result
is independent of the cache contents. -/
theorem get_nocache_always_fetches {α : Type} (cfg : ApiConfig)
    (fetch : String → FetchOutcome α) (now : Int) (st st2 : ClientState α)
    (endpoint : String) (params : List (String × Option String)) :
    (ApiClient.get cfg fetch now st endpoint params false).2.1 = st ∧
    (ApiClient.get cfg fetch now st endpoint params false).2.2 = true ∧
    (ApiClient.get cfg fetch now st endpoint params false).1 =
      (ApiClient.get cfg fetch now st2 endpoint params false).1 := by
  unfold ApiClient.get
  cases h : fetch (buildUrl cfg.baseUrl endpoint params) <;> simp [h]

/-- C5: `buildUrl` never serializes empty-string or absent/null query
parameters — every serialized pair has a non-empty value, dropping an
empty-string pair or an absent pair leaves the URL unchanged, and
consequently a GET with an omitted parameter and a GET with that
parameter set to the empty string behave identically (same cache key). -/
theorem buildUrl_drops_empty_and_null_params (base ep k : String)
    (ps1 ps2 ps : List (String × Option String)) :
    (serializeParams ps).all (fun kv => kv.2 != "") = true ∧
    buildUrl base ep (ps1 ++ (k, some "") :: ps2) = buildUrl base ep (ps1 ++ ps2) ∧
    buildUrl base ep (ps1 ++ (k, none) :: ps2) = buildUrl base ep (ps1 ++ ps2) ∧
    ∀ (α : Type) (ttl : Int) (fetch : String → FetchOutcome α) (now : Int)
      (st : ClientState α) (u : Bool),
      ApiClient.get { baseUrl := base, cacheTtlSeconds := ttl } fetch now st ep
          (ps1 ++ (k, some "") :: ps2) u =
        ApiClient.get { baseUrl := base, cacheTtlSeconds := ttl } fetch now st ep
          (ps1 ++ ps2) u := by
  have hser : ∀ ps1a ps2a : List (String × Option String),
      serializeParams (ps1a ++ (k, some "") :: ps2a) = serializeParams (ps1a ++ ps2a) := by
    intro ps1a ps2a
    simp [serializeParams, List.filterMap_append]
  have hsernone : ∀ ps1a ps2a : List (String × Option String),
      serializeParams (ps1a ++ (k, none) :: ps2a) = serializeParams (ps1a ++ ps2a) := by
    intro ps1a ps2a
    simp [serializeParams, List.filterMap_append]
  refine ⟨?_, ?_, ?_, ?_⟩
  · induction ps with
    | nil => rfl
    | cons p rest ih =>
      obtain ⟨k2, v2⟩ := p
      cases v2 with
      | none => simpa [serializeParams] using ih
      | some v =>
        by_cases hv : v = "" <;> simp [serializeParams, hv] at ih ⊢ <;> simpa [serializeParams] using ih
  · simp [buildUrl, hser]
  · simp [buildUrl, hsernone]
  · intro α ttl fetch now st u
    unfold ApiClient.get
    rw [show buildUrl base ep (ps1 ++ (k, some "") :: ps2)
          = buildUrl base ep (ps1 ++ ps2) by simp [buildUrl, hser]]

/-- C3: in both dispatchers, a tool name absent from the registry yields a
`MethodNotFound` protocol error carrying the unknown name; no handler can
be involved since none is registered under the name, and the result
mentions nothing but the name. -/
theorem unknown_tool_method_not_found {V R V2 R2 : Type}
    (toolsZ : List (String × ZodTool V R))
    (handlersE : List (String × (V2 → Except Thrown R2)))
    (name : String) (v : V) (v2 : V2)
    (hz : List.lookup name toolsZ = none)
    (he : List.lookup name handlersE = none) :
    zodDispatch toolsZ name v = .mcpError .methodNotFound ("Unknown tool: " ++ name) ∧
    exDispatch handlersE name v2 = .mcpError .methodNotFound ("Unknown tool: " ++ name) := by
  constructor
  · simp [zodDispatch, hz]
  · simp [exDispatch, he]

/-- Witness for C3: the name `no-such-tool` is registered in neither
fixture registry, and both dispatchers answer with the
`MethodNotFound` error carrying that name. -/
theorem unknown_tool_method_not_found_witness :
    List.lookup "no-such-tool" zodBoomTools = none ∧
    List.lookup "no-such-tool" exampleDeleteRegistry = none ∧
    zodDispatch zodBoomTools "no-such-tool" 0 =
      .mcpError .methodNotFound "Unknown tool: no-such-tool" ∧
    exDispatch exampleDeleteRegistry "no-such-tool"
        ({ resourceId := some "r1", confirm := some true } : DeleteArgs) =
      .mcpError .methodNotFound "Unknown tool: no-such-tool" := by
  refine ⟨rfl, rfl, ?_, ?_⟩
  · exact (unknown_tool_method_not_found zodBoomTools exampleDeleteRegistry
      "no-such-tool" 0 ⟨some "r1", some true⟩ rfl rfl).1
  · exact (unknown_tool_method_not_found zodBoomTools exampleDeleteRegistry
      "no-such-tool" 0 ⟨some "r1", some true⟩ rfl rfl).2

/-- C2 (amended, zod-variant part): when a registered tool's schema parse
rejects the raw arguments, the zod-variant dispatch yields the
`InvalidParams` error `Invalid arguments: <description>`; the handler `g`
is universally quantified and absent from the result, so the handler's
business logic is never invoked. -/
theorem zod_validation_failure_rejects {V R : Type} (p : V → Except String V)
    (g : V → Except Thrown R) (name : String)
    (rest : List (String × ZodTool V R)) (v : V) (e : String)
    (hp : p v = .error e) :
    zodDispatch ((name, { parse := p, handler := g }) :: rest) name v =
      .mcpError .invalidParams ("Invalid arguments: " ++ e) := by
  simp [zodDispatch, List.lookup, hp]

/-- Witness for C2: a tool whose parse always rejects with `Required`
dispatches to the `Invalid arguments: Required` error even though its
handler would succeed. -/
theorem zod_validation_failure_rejects_witness :
    (fun _ : Int => (Except.error "Required" : Except String Int)) 0 =
      Except.error "Required" ∧
    zodDispatch [("calculate-sum",
        { parse := fun _ : Int => .error "Required",
          handler := fun _ : Int => (.ok "ran" : Except Thrown String) })]
      "calculate-sum" 0 = .mcpError .invalidParams "Invalid arguments: Required" :=
  ⟨rfl, zod_validation_failure_rejects (fun _ => .error "Required")
     (fun _ => .ok "ran") "calculate-sum" [] 0 "Required" rfl⟩

/-- Counterexample to C2 as stated: the example-variant dispatcher never
validates against the tools' declared input schemas. Dispatching
`delete_resource` with the required `confirm` field absent (rejected by
the declared schema) invokes the handler — the resulting envelope carries
the handler's own confirmation-precondition message, an error envelope
rather than any `invalid arguments` protocol error. -/
theorem example_dispatch_skips_schema_validation :
    deleteInputSchemaAccepts { resourceId := some "r1", confirm := none } = false ∧
    exDispatch exampleDeleteRegistry "delete_resource"
        ({ resourceId := some "r1", confirm := none } : DeleteArgs) =
      .errorEnvelope "Error: Failed to delete resource: Deletion must be confirmed by setting confirm=true" ∧
    (delete_resource svcTest { resourceId := some "r1", confirm := none }).1 =
      Except.error (.err "Failed to delete resource: Deletion must be confirmed by setting confirm=true") := by
  refine ⟨rfl, by decide, by decide⟩

/-- C4 (amended): the example-variant dispatcher wraps every value a
handler throws (other than an `McpError`) into an error envelope carrying
its message and propagates nothing; the zod-variant dispatcher wraps a
handler-thrown `Error` as the `InvalidParams` kind — the same kind as a
validation failure — and re-throws a handler-thrown non-`Error` value to
the transport. -/
theorem handler_thrown_value_wrapping {V R V2 R2 : Type}
    (handlers : List (String × (V → Except Thrown R)))
    (hd : V → Except Thrown R) (name : String) (v : V) (t : Thrown)
    (hl : List.lookup name handlers = some hd) (hr : hd v = .error t) :
    exDispatch handlers name v = .errorEnvelope ("Error: " ++ thrownText t) ∧
    (∀ (p : V2 → Except String V2) (g : V2 → Except Thrown R2) (nm : String)
       (rest : List (String × ZodTool V2 R2)) (w w2 : V2) (m : String),
       p w = .ok w2 → g w2 = .error (.err m) →
       zodDispatch ((nm, { parse := p, handler := g }) :: rest) nm w =
         .mcpError .invalidParams ("Invalid arguments: " ++ m)) ∧
    (∀ (p : V2 → Except String V2) (g : V2 → Except Thrown R2) (nm : String)
       (rest : List (String × ZodTool V2 R2)) (w w2 : V2) (d : String),
       p w = .ok w2 → g w2 = .error (.raw d) →
       zodDispatch ((nm, { parse := p, handler := g }) :: rest) nm w =
         .crash (.raw d)) := by
  refine ⟨?_, ?_, ?_⟩
  · simp [exDispatch, hl, hr]
  · intro p g nm rest w w2 m hp hg
    simp [zodDispatch, List.lookup, hp, hg]
  · intro p g nm rest w w2 d hp hg
    simp [zodDispatch, List.lookup, hp, hg]

/-- Witness for C4 (amended): the delete handler's thrown confirmation
`Error` surfaces from the example-variant dispatcher as the error
envelope with its message. -/
theorem handler_thrown_value_wrapping_witness :
    List.lookup "delete_resource" exampleDeleteRegistry =
      some (fun a => (delete_resource svcTest a).1) ∧
    (fun a : DeleteArgs => (delete_resource svcTest a).1)
        { resourceId := some "r1", confirm := some false } =
      Except.error (.err "Failed to delete resource: Deletion must be confirmed by setting confirm=true") ∧
    exDispatch exampleDeleteRegistry "delete_resource"
        ({ resourceId := some "r1", confirm := some false } : DeleteArgs) =
      .errorEnvelope "Error: Failed to delete resource: Deletion must be confirmed by setting confirm=true" :=
  ⟨rfl, by decide,
   (@handler_thrown_value_wrapping DeleteArgs String Int String
     exampleDeleteRegistry
     (fun a => (delete_resource svcTest a).1) "delete_resource"
     { resourceId := some "r1", confirm := some false }
     (.err "Failed to delete resource: Deletion must be confirmed by setting confirm=true")
     rfl (by decide)).1⟩

/-- Counterexample to C4 as stated: in the zod-variant dispatcher a
handler that throws `Error("boom")` yields the `InvalidParams`
(`Invalid arguments`) kind — not a distinct execution-error kind — and a
handler that throws the non-`Error` value `42` escapes the dispatcher
unwrapped. -/
theorem zod_handler_error_labelled_invalid_args :
    zodDispatch zodBoomTools "boom-tool" 0 =
      .mcpError .invalidParams "Invalid arguments: boom" ∧
    zodDispatch zodBoomTools "raw-tool" 0 = .crash (.raw "42") := by
  constructor <;> rfl

/-- C6: whenever `confirm` is absent or not `true`, the delete handler
performs no service call and rejects; when `resourceId` is truthy the
rejection message is the confirmation message; and a service call is only
ever performed with a truthy `resourceId` and `confirm = true`. -/
theorem delete_requires_confirmation (svc : SvcModel) (args : DeleteArgs)
    (h : args.confirm ≠ some true) :
    (delete_resource svc args).2 = [] ∧
    (∃ m, (delete_resource svc args).1 = Except.error (.err m)) ∧
    (jsTruthyStr args.resourceId = true →
      (delete_resource svc args).1 =
        Except.error (.err "Failed to delete resource: Deletion must be confirmed by setting confirm=true")) ∧
    (∀ (svc2 : SvcModel) (args2 : DeleteArgs),
      (delete_resource svc2 args2).2 ≠ [] →
      jsTruthyStr args2.resourceId = true ∧ args2.confirm = some true) := by
  have hguard : ∀ (svc2 : SvcModel) (args2 : DeleteArgs),
      (delete_resource svc2 args2).2 ≠ [] →
      jsTruthyStr args2.resourceId = true ∧ args2.confirm = some true := by
    intro svc2 args2 hne
    obtain ⟨orid, oc⟩ := args2
    cases orid with
    | none => simp [delete_resource] at hne
    | some rid =>
      by_cases hrid : rid = ""
      · simp [delete_resource, hrid] at hne
      · by_cases hc : oc = some true
        · exact ⟨by simp [jsTruthyStr, hrid], hc⟩
        · simp [delete_resource, hrid, hc] at hne
  refine ⟨?_, ?_, ?_, hguard⟩
  · by_contra hne
    exact h (hguard svc args hne).2
  · obtain ⟨orid, oc⟩ := args
    have hc : ¬ (oc = some true) := by simpa using h
    cases orid with
    | none =>
      exact ⟨"Failed to delete resource: resourceId is required", by simp [delete_resource]⟩
    | some rid =>
      by_cases hrid : rid = ""
      · exact ⟨"Failed to delete resource: resourceId is required",
          by simp [delete_resource, hrid]⟩
      · exact ⟨"Failed to delete resource: Deletion must be confirmed by setting confirm=true",
          by simp [delete_resource, hrid, hc]⟩
  · intro htr
    obtain ⟨orid, oc⟩ := args
    have hc : ¬ (oc = some true) := by simpa using h
    cases orid with
    | none => simp [jsTruthyStr] at htr
    | some rid =>
      have hrid : rid ≠ "" := by simpa [jsTruthyStr] using htr
      simp [delete_resource, hrid, hc]

/-- Witness for C6: the spec scenario `resourceId = "r1", confirm = false`
is rejected with the confirmation message and no service call happens. -/
theorem delete_requires_confirmation_witness :
    (({ resourceId := some "r1", confirm := some false } : DeleteArgs).confirm ≠ some true) ∧
    (delete_resource svcTest { resourceId := some "r1", confirm := some false }).2 = [] ∧
    (delete_resource svcTest { resourceId := some "r1", confirm := some false }).1 =
      Except.error (.err "Failed to delete resource: Deletion must be confirmed by setting confirm=true") :=
  ⟨by decide,
   (delete_requires_confirmation svcTest
     { resourceId := some "r1", confirm := some false } (by decide)).1,
   (delete_requires_confirmation svcTest
     { resourceId := some "r1", confirm := some false } (by decide)).2.2.1 (by decide)⟩

/-- C7: with a truthy `resourceId`, the update handler forwards exactly
the non-identifier fields as the update body: the single service call it
makes carries the rest-spread of the arguments, and a field belongs to
that body exactly when it belongs to the arguments and is not the
identifier. -/
theorem update_strips_identifier (svc : SvcModel)
    (args : List (String × String)) (rid : String)
    (hl : jsLookup args "resourceId" = some rid) (hrid : rid ≠ "") :
    (update_resource svc args).2 =
      [.updateCall rid (restSpread args "resourceId")] ∧
    ∀ k v, (k, v) ∈ restSpread args "resourceId" ↔
      ((k, v) ∈ args ∧ k ≠ "resourceId") := by
  constructor
  · cases hu : svc.updateResource rid (restSpread args "resourceId") <;>
      simp [update_resource, hl, hrid, hu]
  · intro k v
    simp [restSpread, List.mem_filter]

/-- Witness for C7: the spec scenario — updating with
`resourceId = "r1"` and `name = "new"` forwards only `name = "new"` as
the body of the single service call. -/
theorem update_strips_identifier_witness :
    jsLookup [("resourceId", "r1"), ("name", "new")] "resourceId" = some "r1" ∧
    restSpread [("resourceId", "r1"), ("name", "new")] "resourceId" = [("name", "new")] ∧
    (update_resource svcTest [("resourceId", "r1"), ("name", "new")]).2 =
      [.updateCall "r1" (restSpread [("resourceId", "r1"), ("name", "new")] "resourceId")] :=
  ⟨by decide, by decide,
   (update_strips_identifier svcTest [("resourceId", "r1"), ("name", "new")]
     "r1" (by decide) (by decide)).1⟩

/-- C8: for a non-empty query whose upstream search succeeds, the search
handler returns a success whose `count` equals the length of the returned
list, and a resource is in the returned list exactly when it came from
the upstream result, matches the status filter when one is given (truthy),
and shares at least one tag with the tag filter when a non-empty one is
given — the narrowing is applied in-process on whatever the upstream
oracle returned. -/
theorem search_narrows_in_process (svc : SvcModel) (args : SearchArgs)
    (upstream : List ExampleResource) (hq : args.query ≠ "")
    (hs : svc.searchResourcesByName args.query = .ok upstream) :
    exceptOk (search_resources svc args).1 = true ∧
    searchResultCount (search_resources svc args).1 =
      (searchResultList (search_resources svc args).1).length ∧
    ∀ r, r ∈ searchResultList (search_resources svc args).1 ↔
      (r ∈ upstream ∧
       (∀ s, args.status = some s → s ≠ "" → r.status = s) ∧
       (∀ ts, args.tags = some ts → ts ≠ [] → ∃ tg, tg ∈ r.tags ∧ tg ∈ ts)) := by
  obtain ⟨q, tags, status⟩ := args
  simp only [ne_eq] at hq
  unfold search_resources
  simp only [hq, if_false, hs, exceptOk, searchResultCount, searchResultList]
  refine ⟨trivial, trivial, ?_⟩
  intro r
  rcases status with _ | s <;> rcases tags with _ | ts
  · simp [jsTruthyStr]
  · by_cases hts : ts = []
    · subst hts
      simp [jsTruthyStr]
    · simp [jsTruthyStr, hts, List.length_pos.mpr hts, List.mem_filter,
        List.any_eq_true, List.elem_iff]
  · by_cases hsE : s = ""
    · subst hsE
      simp [jsTruthyStr]
    · simp [jsTruthyStr, hsE, List.mem_filter]
  · by_cases hsE : s = ""
    · subst hsE
      by_cases hts : ts = []
      · subst hts
        simp [jsTruthyStr]
      · simp [jsTruthyStr, hts, List.length_pos.mpr hts, List.mem_filter,
          List.any_eq_true, List.elem_iff]
    · by_cases hts : ts = []
      · subst hts
        simp [jsTruthyStr, hsE, List.mem_filter]
      · simp [jsTruthyStr, hsE, hts, List.length_pos.mpr hts, List.mem_filter,
          List.any_eq_true, List.elem_iff, and_assoc]
        tauto

/-- Witness for C8: the spec scenario — searching `widget` with tag
filter `red` keeps exactly the red-tagged fixture resource out of the two
upstream results, and the kept resource satisfies the narrowing
characterization. -/
theorem search_narrows_in_process_witness :
    ({ query := "widget", tags := some ["red"], status := none } : SearchArgs).query ≠ "" ∧
    svcTest.searchResourcesByName "widget" = Except.ok [resRed, resBlue] ∧
    searchResultList (search_resources svcTest
        { query := "widget", tags := some ["red"], status := none }).1 = [resRed] ∧
    resRed ∈ searchResultList (search_resources svcTest
        { query := "widget", tags := some ["red"], status := none }).1 := by
  refine ⟨by decide, rfl, by decide, ?_⟩
  refine ((search_narrows_in_process svcTest
      { query := "widget", tags := some ["red"], status := none }
      [resRed, resBlue] (by decide) rfl).2.2 resRed).mpr ⟨by decide, ?_, ?_⟩
  · intro s hcon
    cases hcon
  · intro ts hts hne
    injection hts with h2
    exact ⟨"red", by decide, by rw [← h2]; decide⟩
